import Mathlib

/-!
Shallow embedding of the Unlimited SMS Gateway (src/config.js, src/index.js).

Phone numbers and message bodies are modelled as `List Char` (JS strings),
fixed labels (country names, method names, statuses) as `String`, JS floating
point arithmetic as exact rationals `ℚ`, and JS numeric counters as `ℤ`.
Randomness (score jitter, simulated transmission results) is passed in
explicitly as a parameter, mirroring the places where `Math.random()` is read.
-/

namespace SMSGateway

/-- JS `Math.min` on two numbers, written with an explicit comparison so that
it evaluates by kernel reduction. -/
def jsMin (a b : ℚ) : ℚ := if a ≤ b then a else b

/-- JS `Math.max` on two numbers, written with an explicit comparison so that
it evaluates by kernel reduction. -/
def jsMax (a b : ℚ) : ℚ := if a ≤ b then b else a

/-- config.js `SMS_SETTINGS.MAX_MESSAGE_LENGTH`. -/
def maxMessageLength : ℕ := 1000

/-- config.js `TRANSMISSION_METHODS`, in declared order. -/
def transmissionMethods : List String :=
  ["QUANTUM_TUNNELING",
   "VIRTUAL_GSM_SIMULATION",
   "AI_OPTIMIZED_ROUTING",
   "DIRECT_SOCKET_CONNECTION",
   "WAVE_FUNCTION_TRANSMISSION"]

/-- index.js `detectCountry` (lines 794-812): the `countryCodes` object, in
insertion order, which is the `Object.entries` iteration order. -/
def countryCodes : List (List Char × String) :=
  [("+92".toList, "PAKISTAN"),
   ("+1".toList, "USA"),
   ("+44".toList, "UK"),
   ("+971".toList, "UAE"),
   ("+966".toList, "SAUDI_ARABIA"),
   ("+91".toList, "INDIA"),
   ("+86".toList, "CHINA")]

/-- index.js `detectCountry` (lines 794-812): iterate the entries in order and
return the first whose code is a prefix of the number (`startsWith`), else
`"INTERNATIONAL"`. -/
def detectCountry (phoneNumber : List Char) : String :=
  match countryCodes.find? (fun e => e.1.isPrefixOf phoneNumber) with
  | some e => e.2
  | none => "INTERNATIONAL"

/-- The phone regex `^\+[1-9]\d{10,14}$` of index.js `validatePhoneNumber`
(line 774): a plus sign, a leading digit 1-9, then 10 to 14 further digits. -/
def matchesPhoneRegex (s : List Char) : Bool :=
  match s with
  | '+' :: d :: rest =>
      ('1' ≤ d && d ≤ '9') && rest.all Char.isDigit &&
        (decide (10 ≤ rest.length) && decide (rest.length ≤ 14))
  | _ => false

/-- Result record of index.js `validatePhoneNumber` (lines 773-792). -/
structure PhoneValidation where
  valid : Bool
  message : String
  country : String
deriving DecidableEq, Repr

/-- index.js `validatePhoneNumber` (lines 773-792): regex check, then country
detection; on failure the country is `"UNKNOWN"`. -/
def validatePhoneNumber (phoneNumber : List Char) : PhoneValidation :=
  if matchesPhoneRegex phoneNumber = false then
    { valid := false,
      message := "Invalid phone number format. Please use international format.",
      country := "UNKNOWN" }
  else
    { valid := true,
      message := "Phone number accepted",
      country := detectCountry phoneNumber }

/-- Result record of index.js `validateMessage` (lines 814-833). -/
structure MessageValidation where
  valid : Bool
  message : String
deriving DecidableEq, Repr

/-- JS `String.prototype.trim`: strip leading and trailing whitespace. -/
def jsTrim (s : List Char) : List Char :=
  ((s.dropWhile Char.isWhitespace).reverse.dropWhile Char.isWhitespace).reverse

/-- index.js `validateMessage` (lines 814-833): reject when empty after trim
or longer than `config.SMS_SETTINGS.MAX_MESSAGE_LENGTH`. -/
def validateMessage (message : List Char) : MessageValidation :=
  if (jsTrim message).length = 0 then
    { valid := false, message := "Message cannot be empty" }
  else if message.length > maxMessageLength then
    { valid := false, message := "Message too long" }
  else
    { valid := true, message := "Message accepted" }

/-- index.js `splitMessage` (lines 835-845): `for (i = 0; i < len; i += 160)`
pushing `message.substring(i, i + 160)`. -/
def splitMessage (m : List Char) : List (List Char) :=
  if h : m = [] then []
  else m.take 160 :: splitMessage (m.drop 160)
termination_by m.length
decreasing_by
  have hp : 0 < m.length := List.length_pos.mpr h
  simp [List.length_drop]
  omega

/-- index.js `detectEncoding` (lines 847-856): regex `[^\u0000-ÿ]` then
`[^\u0000-\u007F]`. -/
def detectEncoding (message : List Char) : String :=
  if message.any (fun c => decide (0xFF < c.toNat)) then "UNICODE"
  else if message.any (fun c => decide (0x7F < c.toNat)) then "GSM_EXTENDED"
  else "GSM_7BIT"

/-- index.js `calculatePriority` (lines 858-885): the `countryPriority`
object. -/
def countryPriority : List (String × ℚ) :=
  [("PAKISTAN", 1.2), ("USA", 1.1), ("UAE", 1.0),
   ("SAUDI_ARABIA", 1.0), ("INTERNATIONAL", 0.9)]

/-- Association-list lookup with a default, modelling the JS pattern
`table[key] || fallback` used with tables of non-zero numeric values. -/
def lookupD (tbl : List (String × ℚ)) (key : String) (fallback : ℚ) : ℚ :=
  match tbl.find? (fun e => e.1 == key) with
  | some e => e.2
  | none => fallback

/-- index.js `calculatePriority` (lines 858-885): the `urgentWords` array. -/
def urgentWords : List (List Char) :=
  ["urgent".toList, "emergency".toList, "asap".toList, "immediately".toList]

/-- JS `String.prototype.includes`: substring containment. -/
def jsIncludes (hay needle : List Char) : Bool :=
  decide (needle <:+: hay)

/-- index.js `calculatePriority` (lines 858-885): start at 1, multiply by the
country weight (default 1.0), multiply by 1.5 for each urgent word contained in
the lowercased message, cap at 3. -/
def calculatePriority (phoneNumber message : List Char) : ℚ :=
  let country := detectCountry phoneNumber
  let p1 : ℚ := 1 * lookupD countryPriority country 1.0
  let lower := message.map Char.toLower
  let p2 := urgentWords.foldl (fun pr w => if jsIncludes lower w then pr * 1.5 else pr) p1
  jsMin 3 p2

/-- index.js `calculateBestRoute` (lines 887-899): the `routes` object. -/
def bestRoutes : List (String × String) :=
  [("PAKISTAN", "QUANTUM_PAKISTAN_HUB"), ("USA", "SATELLITE_US_NET"),
   ("UAE", "MIDDLE_EAST_HUB"), ("SAUDI_ARABIA", "ARABIAN_NETWORK"),
   ("INTERNATIONAL", "GLOBAL_AI_ROUTING")]

/-- index.js `calculateBestRoute` (lines 887-899): country lookup with default
`"DEFAULT_AI_ROUTE"`. -/
def calculateBestRoute (phoneNumber : List Char) : String :=
  let country := detectCountry phoneNumber
  match bestRoutes.find? (fun e => e.1 == country) with
  | some e => e.2
  | none => "DEFAULT_AI_ROUTE"

/-- index.js `calculateTransmissionWindow` (lines 901-913), with the current
hour passed explicitly. -/
def calculateTransmissionWindow (hour : ℕ) : String :=
  if 1 ≤ hour ∧ hour ≤ 5 then "OPTIMAL_NIGHT_WINDOW"
  else if 13 ≤ hour ∧ hour ≤ 17 then "PEAK_AVOIDANCE_WINDOW"
  else "STANDARD_WINDOW"

/-- index.js `calculateSuccessProbability` (lines 915-935): the
`countryProbabilities` object. -/
def countryProbabilities : List (String × ℚ) :=
  [("PAKISTAN", 0.95), ("USA", 0.90), ("UAE", 0.92),
   ("SAUDI_ARABIA", 0.91), ("INTERNATIONAL", 0.80)]

/-- index.js `calculateSuccessProbability` (lines 915-935): base 0.85 times
the country weight (default 0.85), plus 0.1, capped at 0.99. -/
def calculateSuccessProbability (phoneNumber : List Char) : ℚ :=
  let country := detectCountry phoneNumber
  let probability : ℚ := 0.85 * lookupD countryProbabilities country 0.85
  jsMin 0.99 (probability + 0.1)

/-- Wrap an integer to the signed 32-bit range, modelling the JS `ToInt32`
coercion performed by the bitwise operators in `calculateHash`. -/
def toInt32 (n : ℤ) : ℤ := ((n + 2 ^ 31) % 2 ^ 32) - 2 ^ 31

/-- index.js `calculateHash` (lines 937-946): `hash = ((hash << 5) - hash) +
charCode; hash = hash & hash` over the characters, starting from 0. -/
def calculateHash (data : List Char) : ℤ :=
  data.foldl (fun hash c => toInt32 (toInt32 (hash * 2 ^ 5) - hash + c.toNat)) 0

/-- The optimization profile computed by index.js `optimizeTransmission`
(lines 630-645). -/
structure Optimization where
  phoneNumber : List Char
  country : String
  messageLength : ℕ
  parts : ℕ
  encoding : String
  priority : ℚ
  bestRoute : String
  transmissionWindow : String
  successProbability : ℚ
deriving DecidableEq, Repr

/-- index.js `optimizeTransmission` (lines 630-645), with the current hour
passed explicitly for `calculateTransmissionWindow`. -/
def optimizeTransmission (phoneNumber message : List Char) (hour : ℕ) : Optimization :=
  { phoneNumber := phoneNumber,
    country := detectCountry phoneNumber,
    messageLength := message.length,
    parts := (splitMessage message).length,
    encoding := detectEncoding message,
    priority := calculatePriority phoneNumber message,
    bestRoute := calculateBestRoute phoneNumber,
    transmissionWindow := calculateTransmissionWindow hour,
    successProbability := calculateSuccessProbability phoneNumber }

/-- index.js `scoreTransmissionMethod` (lines 661-690): base 0.5, a
method-specific bonus with a per-method conditional bonus, plus an injected
jitter (the source draws `Math.random() * 0.2 - 0.1`), clamped to [0, 1] by
`Math.min(1, Math.max(0, score))`. -/
def scoreTransmissionMethod (method : String) (optimization : Optimization) (jitter : ℚ) : ℚ :=
  let base : ℚ := 0.5
  let score : ℚ :=
    if method = "QUANTUM_TUNNELING" then
      base + 0.3 + (if optimization.country = "PAKISTAN" then 0.1 else 0)
    else if method = "VIRTUAL_GSM_SIMULATION" then
      base + 0.25 + (if optimization.messageLength > 160 then 0.15 else 0)
    else if method = "AI_OPTIMIZED_ROUTING" then
      base + 0.2 + (if optimization.priority > 1 then 0.2 else 0)
    else if method = "DIRECT_SOCKET_CONNECTION" then
      base + 0.15
    else if method = "WAVE_FUNCTION_TRANSMISSION" then
      base + 0.4
    else base
  jsMin 1 (jsMax 0 (score + jitter))

/-- The accumulator step of the `reduce` in index.js
`selectBestTransmissionMethod` (lines 656-658): replace the running best only
on a strictly greater score, so the earlier entry wins ties. -/
def pickBetter (best current : String × ℚ) : String × ℚ :=
  if current.2 > best.2 then current else best

/-- index.js `selectBestTransmissionMethod` (lines 647-659): score every
configured method (jitter injected per method) and `reduce` to the entry with
the highest score. JS `reduce` with no initial value starts from the first
element and throws on an empty array; the configured list is the fixed
five-element `config.TRANSMISSION_METHODS`, so the empty branch is
unreachable. -/
def selectBestTransmissionMethod (optimization : Optimization) (jitter : String → ℚ) : String :=
  let scores := transmissionMethods.map (fun m => (m, scoreTransmissionMethod m optimization (jitter m)))
  (scores.tail.foldl pickBetter (scores.headD ("", 0))).1

/-- The encryption envelope produced by index.js `applyQuantumEncryption`
(lines 692-703), with the timestamp fields abstracted away. -/
structure EncryptionEnvelope where
  algorithm : String
  keySize : ℕ
  dataHash : ℤ
deriving DecidableEq, Repr

/-- index.js `applyQuantumEncryption` (lines 692-703). -/
def applyQuantumEncryption (message : List Char) : EncryptionEnvelope :=
  { algorithm := "QUANTUM_SHA512", keySize := 512, dataHash := calculateHash message }

/-- The record resolved by index.js `transmitSMS` (lines 705-727); the route,
signal strength and entanglement flag are drawn from `Math.random()`. -/
structure TransmitResult where
  route : String
  network : String
  signalStrength : ℕ
deriving DecidableEq, Repr

/-- The result record returned by index.js `processSMSTransmission`
(lines 578-628): the success shape from lines 604-615, the failure shape from
lines 618-626 (which carries no parts or route). -/
structure SMSResult where
  success : Bool
  phoneNumber : List Char
  method : String
  parts : Option ℕ
  status : String
  error : Option String
  route : Option String
deriving DecidableEq, Repr

/-- index.js `processSMSTransmission` (lines 578-628): optimize, select a
method, apply the encryption envelope, then transmit, all inside a
`try`/`catch` that turns any internal exception into a failure result with
`status = "FAILED"` and the captured error message. The pure steps are
computed by the embedded functions; `transmitOutcome` injects the simulated
transmission (the one suspension and randomness point) and stands for any
internal exception the `catch` can observe. -/
def processSMSTransmission (phoneNumber message : List Char) (hour : ℕ)
    (jitter : String → ℚ) (transmitOutcome : Except String TransmitResult) : SMSResult :=
  let optimization := optimizeTransmission phoneNumber message hour
  let method := selectBestTransmissionMethod optimization jitter
  let _envelope := applyQuantumEncryption message
  match transmitOutcome with
  | Except.ok tr =>
      { success := true,
        phoneNumber := phoneNumber,
        method := method,
        parts := some optimization.parts,
        status := "DELIVERED",
        error := none,
        route := some tr.route }
  | Except.error e =>
      { success := false,
        phoneNumber := phoneNumber,
        method := "FAILED",
        parts := none,
        status := "FAILED",
        error := some e,
        route := none }

/-- The `systemStats` counters of index.js (lines 42-49) touched by the send
and retry paths, as JS numbers. -/
structure SystemStats where
  totalSMS : ℤ
  successful : ℤ
  failed : ℤ
deriving DecidableEq, Repr

/-- The counter update of index.js `sendSMS` (lines 515-521): increment
`totalSMS`, then `successful` or `failed` according to the result. -/
def sendSMSStatsUpdate (stats : SystemStats) (success : Bool) : SystemStats :=
  { totalSMS := stats.totalSMS + 1,
    successful := if success then stats.successful + 1 else stats.successful,
    failed := if success then stats.failed else stats.failed + 1 }

/-- The counter update of index.js `retryTransmission` (lines 956-961): on a
successful retry increment `successful` and decrement `failed`; otherwise the
counters are untouched. -/
def retryStatsUpdate (stats : SystemStats) (retrySuccess : Bool) : SystemStats :=
  if retrySuccess then
    { stats with successful := stats.successful + 1, failed := stats.failed - 1 }
  else stats

/-- The bounded-append pattern shared by index.js `logTransmission`
(lines 990-1001) and `checkSystemHealth` (lines 1301-1308): `push` the entry,
then if the length exceeds the cap keep only the last `cap` entries
(`slice(-cap)`). -/
def pushCapped (cap : ℕ) (logs : List α) (entry : α) : List α :=
  let logs' := logs ++ [entry]
  if logs'.length > cap then logs'.drop (logs'.length - cap) else logs'

/-- index.js `logTransmission` (lines 982-1003): append to `sms_logs.json`
capped at 10,000 entries. -/
def logTransmissionAppend (logs : List α) (entry : α) : List α :=
  pushCapped 10000 logs entry

/-- index.js `checkSystemHealth` (lines 1294-1308): append to `health.json`
capped at 1,000 entries. -/
def healthLogAppend (logs : List α) (entry : α) : List α :=
  pushCapped 1000 logs entry

/-- A queued transmission request held in `this.transmissionQueue`. -/
structure QueueItem where
  phoneNumber : List Char
  message : List Char
deriving DecidableEq, Repr

/-- The engine state shared by the interactive send path and the queue drain
tick: the stats counters, the pending queue, and the bounded transmission
log. -/
structure GatewayState where
  stats : SystemStats
  transmissionQueue : List QueueItem
  smsLogs : List (List Char × Bool)

/-- index.js `processTransmissionQueue` (lines 1211-1227): return immediately
on an empty queue; otherwise `splice(0, 10)` a batch off the front and run
each item through `processSMSTransmission` inside a per-item `try`/`catch`,
discarding the results — the body never writes `systemStats` or the
transmission log. `env` supplies each item's simulated transmission
outcome. -/
def processTransmissionQueue (s : GatewayState) (hour : ℕ) (jitter : String → ℚ)
    (env : QueueItem → Except String TransmitResult) : GatewayState :=
  if s.transmissionQueue.isEmpty then s
  else
    let batch := s.transmissionQueue.take 10
    let s' := { s with transmissionQueue := s.transmissionQueue.drop 10 }
    batch.foldl
      (fun st item =>
        let _result := processSMSTransmission item.phoneNumber item.message hour jitter (env item)
        st)
      s'

/-- The per-user conversation steps stored in `session.step`; the strings in
index.js are `awaiting_number`, `awaiting_message`, `confirm_send`,
`awaiting_bulk_numbers`, `awaiting_bulk_messages`, `awaiting_schedule_time`
and `awaiting_schedule_message`. -/
inductive Step
  | awaitingNumber
  | awaitingMessage
  | confirmSend
  | awaitingBulkNumbers
  | awaitingBulkMessages
  | awaitingScheduleTime
  | awaitingScheduleMessage
deriving DecidableEq, Repr

/-- The session modes of index.js (`SINGLE`, `BULK`, `SCHEDULED`). -/
inductive Mode
  | SINGLE
  | BULK
  | SCHEDULED
deriving DecidableEq, Repr

/-- The `session.data` fields written by the single-send flow. -/
structure SessionData where
  phoneNumber : Option (List Char)
  country : Option String
  message : Option (List Char)
  messageParts : Option (List (List Char))
deriving DecidableEq, Repr

/-- A per-user session as stored in `this.userSessions` (index.js
lines 220-225). -/
structure Session where
  step : Step
  mode : Mode
  data : SessionData
deriving DecidableEq, Repr

/-- The user-visible replies produced while handling a text turn. -/
inductive Reply
  | invalidPhone (detail : String)
  | phoneAccepted (country : String)
  | invalidMessage (detail : String)
  | messagePreview
deriving DecidableEq, Repr

/-- The observable outcome of one text turn through index.js
`handleTextMessage` (lines 316-348): either the handler ran and replied
(`handled`), the `switch` matched no case and nothing happened (`noCase`), or
the dispatched method does not exist on the class so the call raised a
`TypeError` before any mutation (`methodUndefined`). -/
inductive TurnResult
  | handled (replies : List Reply) (session : Session)
  | noCase (session : Session)
  | methodUndefined (session : Session)
deriving DecidableEq, Repr

/-- Whether a turn produced replies through a handler (as opposed to raising
or falling through the `switch`). -/
def TurnResult.isHandled : TurnResult → Bool
  | handled _ _ => true
  | _ => false

/-- index.js `processPhoneNumber` (lines 350-379): on invalid input reply with
the validation failure and leave the session untouched; on valid input store
the number and country and advance to `awaiting_message`. -/
def processPhoneNumber (text : List Char) (s : Session) : List Reply × Session :=
  let validation := validatePhoneNumber text
  if validation.valid = false then
    ([Reply.invalidPhone validation.message], s)
  else
    ([Reply.phoneAccepted validation.country],
      { s with
        step := Step.awaitingMessage,
        data := { s.data with
          phoneNumber := some text,
          country := some validation.country } })

/-- index.js `processMessage` (lines 381-419): on invalid input reply with the
validation failure and leave the session untouched; on valid input store the
message and its parts and advance to `confirm_send`. -/
def processMessage (text : List Char) (s : Session) : List Reply × Session :=
  let validation := validateMessage text
  if validation.valid = false then
    ([Reply.invalidMessage validation.message], s)
  else
    ([Reply.messagePreview],
      { s with
        step := Step.confirmSend,
        data := { s.data with
          message := some text,
          messageParts := some (splitMessage text) } })

/-- index.js `handleTextMessage` (lines 316-348): dispatch on `session.step`.
The cases `awaiting_bulk_numbers`, `awaiting_bulk_messages`,
`awaiting_schedule_time` and `awaiting_schedule_message` call
`this.processBulkNumbers`, `this.processBulkMessages`,
`this.processScheduleTime` and `this.processScheduleMessage`, none of which is
defined anywhere on `UnlimitedSMSGateway`, so those calls raise a `TypeError`
with the session left as it was. `confirm_send` matches no `case` and falls
through. -/
def handleTextMessage (s : Session) (text : List Char) : TurnResult :=
  match s.step with
  | Step.awaitingNumber =>
      let (replies, s') := processPhoneNumber text s
      TurnResult.handled replies s'
  | Step.awaitingMessage =>
      let (replies, s') := processMessage text s
      TurnResult.handled replies s'
  | Step.awaitingBulkNumbers => TurnResult.methodUndefined s
  | Step.awaitingBulkMessages => TurnResult.methodUndefined s
  | Step.awaitingScheduleTime => TurnResult.methodUndefined s
  | Step.awaitingScheduleMessage => TurnResult.methodUndefined s
  | Step.confirmSend => TurnResult.noCase s

/-- Spec-side (for the refinement claim about `detectCountry`): the entry with
the longest key among a list of candidates; on a length tie the earlier entry
wins. -/
def bestPrefixEntry : List (List Char × String) → Option (List Char × String)
  | [] => none
  | e :: rest =>
    match bestPrefixEntry rest with
    | none => some e
    | some b => some (if b.1.length > e.1.length then b else e)

/-- Spec-side: the country of the longest prefix in the table that the number
starts with, `"INTERNATIONAL"` when no prefix matches — the spec wording for
`detectCountry`. -/
def detectCountryLongest (phoneNumber : List Char) : String :=
  match bestPrefixEntry (countryCodes.filter (fun e => e.1.isPrefixOf phoneNumber)) with
  | some e => e.2
  | none => "INTERNATIONAL"

/-- Spec-side (for the selection-determinism claim): the first method in the
configured list whose score equals the maximum score — the spec wording
"selection picks the maximum score; ties broken by the fixed method-list
order". -/
def firstMaxMethod (optimization : Optimization) (jitter : String → ℚ) : String :=
  let scores := transmissionMethods.map (fun m => (m, scoreTransmissionMethod m optimization (jitter m)))
  let maxScore := (scores.map Prod.snd).foldl jsMax 0
  ((scores.find? (fun p => p.2 == maxScore)).map Prod.fst).getD ""

/-! Helper lemmas. -/

theorem jsMin_eq_min (a b : ℚ) : jsMin a b = min a b := by
  rw [min_def]; rfl

theorem jsMax_eq_max (a b : ℚ) : jsMax a b = max a b := by
  rw [max_def]; rfl

theorem splitMessage_flatten (m : List Char) : (splitMessage m).flatten = m := by
  induction m using splitMessage.induct with
  | case1 => simp [splitMessage]
  | case2 m h ih =>
      rw [splitMessage, dif_neg h]
      simp only [List.flatten_cons, ih, List.take_append_drop]

theorem splitMessage_length (m : List Char) :
    (splitMessage m).length = (m.length + 159) / 160 := by
  induction m using splitMessage.induct with
  | case1 => simp [splitMessage]
  | case2 m h ih =>
      rw [splitMessage, dif_neg h]
      simp only [List.length_cons, ih, List.length_drop]
      have hp : 0 < m.length := List.length_pos.mpr h
      omega

theorem splitMessage_piece_le (m : List Char) :
    (splitMessage m).all (fun p => decide (p.length ≤ 160)) = true := by
  induction m using splitMessage.induct with
  | case1 => simp [splitMessage]
  | case2 m h ih =>
      rw [splitMessage, dif_neg h]
      simp only [List.all_cons, ih, Bool.and_true, decide_eq_true_eq]
      simp [List.length_take]

theorem find?_eq_head?_filter {α : Type} (p : α → Bool) (l : List α) :
    l.find? p = (l.filter p).head? := by
  induction l with
  | nil => rfl
  | cons a t ih =>
      cases h : p a
      · rw [List.find?_cons_of_neg _ (by simp [h]), List.filter_cons_of_neg (by simp [h]), ih]
      · rw [List.find?_cons_of_pos _ h, List.filter_cons_of_pos h, List.head?_cons]

theorem countryCodes_pairwise :
    countryCodes.Pairwise (fun a b => ¬ a.1 <+: b.1 ∧ ¬ b.1 <+: a.1) := by decide

theorem countryCodes_filter_length_le (n : List Char) :
    (countryCodes.filter (fun e => e.1.isPrefixOf n)).length ≤ 1 := by
  rcases hf : countryCodes.filter (fun e => e.1.isPrefixOf n) with _ | ⟨a, _ | ⟨b, t⟩⟩
  · rw [hf]; simp
  · rw [hf]; simp
  · exfalso
    have hpw := List.Pairwise.sublist (hf ▸ List.filter_sublist countryCodes) countryCodes_pairwise
    have hab := (List.pairwise_cons.mp hpw).1 b (by simp)
    have ha : a.1 <+: n := by
      have : a ∈ countryCodes.filter (fun e => e.1.isPrefixOf n) := by rw [hf]; simp
      exact List.isPrefixOf_iff_prefix.mp (List.mem_filter.mp this).2
    have hb : b.1 <+: n := by
      have : b ∈ countryCodes.filter (fun e => e.1.isPrefixOf n) := by rw [hf]; simp
      exact List.isPrefixOf_iff_prefix.mp (List.mem_filter.mp this).2
    rcases le_total a.1.length b.1.length with hle | hle
    · exact hab.1 (List.prefix_of_prefix_length_le ha hb hle)
    · exact hab.2 (List.prefix_of_prefix_length_le hb ha hle)

theorem pushCapped_eq_drop {α : Type} (cap : ℕ) (acc : List α) (e : α) (hacc : acc.length ≤ cap) :
    pushCapped cap acc e = (acc ++ [e]).drop (acc.length + 1 - cap) := by
  unfold pushCapped
  by_cases hgt : acc.length + 1 > cap
  · rw [if_pos (by simp; omega)]
    simp [List.length_append]
  · rw [if_neg (by simp; omega)]
    have : acc.length + 1 - cap = 0 := by omega
    rw [this, List.drop_zero]

theorem foldl_pushCapped {α : Type} (cap : ℕ) (l acc : List α) (hacc : acc.length ≤ cap) :
    l.foldl (pushCapped cap) acc = (acc ++ l).drop (acc.length + l.length - cap) := by
  induction l generalizing acc with
  | nil => simp [Nat.sub_eq_zero_of_le hacc]
  | cons e t ih =>
      rw [List.foldl_cons]
      have hlen' : (pushCapped cap acc e).length ≤ cap := by
        rw [pushCapped_eq_drop cap acc e hacc]
        simp [List.length_drop]
        omega
      rw [ih _ hlen', pushCapped_eq_drop cap acc e hacc]
      rw [← List.drop_append_of_le_length (by simp)]
      rw [List.drop_drop]
      have hlist : (acc ++ [e]) ++ t = acc ++ e :: t := by simp
      rw [hlist]
      congr 1
      simp [List.length_drop, List.length_append]
      omega

theorem detectCountry_pak : detectCountry "+923001234567".toList = "PAKISTAN" := by decide

theorem successProbability_pak :
    calculateSuccessProbability "+923001234567".toList = 0.9075 := by
  simp only [calculateSuccessProbability, detectCountry_pak, lookupD, countryProbabilities,
    List.find?, jsMin]
  norm_num

theorem priority_pak_hello :
    calculatePriority "+923001234567".toList "Hello".toList = 1.2 := by
  have hl : "Hello".toList.map Char.toLower = "hello".toList := by decide
  have h1 : jsIncludes "hello".toList "urgent".toList = false := by decide
  have h2 : jsIncludes "hello".toList "emergency".toList = false := by decide
  have h3 : jsIncludes "hello".toList "asap".toList = false := by decide
  have h4 : jsIncludes "hello".toList "immediately".toList = false := by decide
  simp only [calculatePriority, detectCountry_pak, hl, urgentWords, List.foldl_cons,
    List.foldl_nil, h1, h2, h3, h4, Bool.false_eq_true, if_false, lookupD, countryPriority,
    List.find?, jsMin]
  norm_num

theorem handleText_bulk_sched_raises (s : Session) (text : List Char)
    (h : s.step = Step.awaitingBulkNumbers ∨ s.step = Step.awaitingBulkMessages ∨
      s.step = Step.awaitingScheduleTime ∨ s.step = Step.awaitingScheduleMessage) :
    handleTextMessage s text = TurnResult.methodUndefined s := by
  obtain ⟨st, mo, da⟩ := s
  rcases h with h | h | h | h <;> (simp only at h; subst h; rfl)

theorem score_bounds (method : String) (o : Optimization) (jitter : ℚ) :
    0 ≤ scoreTransmissionMethod method o jitter ∧
      scoreTransmissionMethod method o jitter ≤ 1 := by
  simp only [scoreTransmissionMethod]
  rw [jsMin_eq_min, jsMax_eq_max]
  exact ⟨le_min (by norm_num) (le_max_left 0 _), min_le_left 1 _⟩

theorem score_eval_QT (o : Optimization) :
    scoreTransmissionMethod "QUANTUM_TUNNELING" o 0 =
      if o.country = "PAKISTAN" then 0.9 else 0.8 := by
  by_cases h : o.country = "PAKISTAN" <;>
    (rw [scoreTransmissionMethod, if_pos rfl] ; simp [h] ; norm_num [jsMin, jsMax])

theorem score_eval_VG (o : Optimization) :
    scoreTransmissionMethod "VIRTUAL_GSM_SIMULATION" o 0 =
      if o.messageLength > 160 then 0.9 else 0.75 := by
  by_cases h : o.messageLength > 160 <;>
    (rw [scoreTransmissionMethod, if_neg (by decide), if_pos rfl] ; simp [h] ;
     norm_num [jsMin, jsMax])

theorem score_eval_AI (o : Optimization) :
    scoreTransmissionMethod "AI_OPTIMIZED_ROUTING" o 0 =
      if o.priority > 1 then 0.9 else 0.7 := by
  by_cases h : o.priority > 1 <;>
    (rw [scoreTransmissionMethod, if_neg (by decide), if_neg (by decide), if_pos rfl] ;
     simp [h] ; norm_num [jsMin, jsMax])

theorem score_eval_DS (o : Optimization) :
    scoreTransmissionMethod "DIRECT_SOCKET_CONNECTION" o 0 = 0.65 := by
  rw [scoreTransmissionMethod, if_neg (by decide), if_neg (by decide), if_neg (by decide),
    if_pos rfl]
  norm_num [jsMin, jsMax]

theorem score_eval_WF (o : Optimization) :
    scoreTransmissionMethod "WAVE_FUNCTION_TRANSMISSION" o 0 = 0.9 := by
  rw [scoreTransmissionMethod, if_neg (by decide), if_neg (by decide), if_neg (by decide),
    if_neg (by decide), if_pos rfl]
  norm_num [jsMin, jsMax]

theorem select_eq_firstMax (o : Optimization) :
    selectBestTransmissionMethod o (fun _ => 0) = firstMaxMethod o (fun _ => 0) := by
  by_cases h1 : o.country = "PAKISTAN" <;> by_cases h2 : o.messageLength > 160 <;>
    by_cases h3 : o.priority > 1 <;>
    (simp only [selectBestTransmissionMethod, firstMaxMethod, transmissionMethods,
      List.map_cons, List.map_nil, score_eval_QT, score_eval_VG, score_eval_AI,
      score_eval_DS, score_eval_WF, h1, h2, h3, if_true, if_false, List.tail_cons,
      List.headD_cons] ;
     norm_num [pickBetter, List.foldl_cons, List.foldl_nil, List.find?_cons, List.find?_nil,
       jsMax])

/-! Claim theorems. -/

/-- C1 (counterexample): for the address `+923001234567` the code computes a
success probability of exactly 0.9075 = min(0.99, 0.85 x 0.95 + 0.10), not the
0.9575 stated in the claim. -/
theorem C1_successProbability_counterexample :
    calculateSuccessProbability "+923001234567".toList = 0.9075 ∧
    calculateSuccessProbability "+923001234567".toList ≠ 0.9575 :=
  ⟨successProbability_pak, by rw [successProbability_pak]; norm_num⟩

/-- C1 (amended): for address `+923001234567` and message `Hello`, validation
passes, the country is PAKISTAN, the part count is 1, the encoding is
GSM_7BIT, the priority is 1.2, the route is QUANTUM_PAKISTAN_HUB, and the
success probability is 0.9075 (the value of min(0.99, 0.85 x 0.95 + 0.10)
with the PAKISTAN weight 0.95 from the fixed table). -/
theorem C1_single_send_scenario :
    (validatePhoneNumber "+923001234567".toList).valid = true ∧
    detectCountry "+923001234567".toList = "PAKISTAN" ∧
    (splitMessage "Hello".toList).length = 1 ∧
    detectEncoding "Hello".toList = "GSM_7BIT" ∧
    calculatePriority "+923001234567".toList "Hello".toList = 1.2 ∧
    calculateBestRoute "+923001234567".toList = "QUANTUM_PAKISTAN_HUB" ∧
    calculateSuccessProbability "+923001234567".toList = 0.9075 :=
  ⟨by decide, detectCountry_pak, by simp [splitMessage], by decide, priority_pak_hello,
   by decide, successProbability_pak⟩

/-- C2 (counterexample): in the BULK flow step `awaiting_bulk_numbers` a text
turn does not produce a validation-failure reply at all — the dispatch calls
the undefined method `processBulkNumbers` and raises, so no handler reply is
produced, contradicting the claim for every mode and step. -/
theorem C2_invalid_input_reply_counterexample :
    handleTextMessage ⟨Step.awaitingBulkNumbers, Mode.BULK, ⟨none, none, none, none⟩⟩ ['x'] =
      TurnResult.methodUndefined ⟨Step.awaitingBulkNumbers, Mode.BULK, ⟨none, none, none, none⟩⟩ ∧
    (handleTextMessage ⟨Step.awaitingBulkNumbers, Mode.BULK, ⟨none, none, none, none⟩⟩
        ['x']).isHandled = false :=
  ⟨rfl, rfl⟩

/-- C2 (amended): in the SINGLE-mode input steps, invalid input leaves the
session (step and stored data) unchanged and produces a validation-failure
reply, and only input accepted by the step validator advances the step; in
the BULK and SCHEDULED text-input steps every text turn raises with the
session unchanged and no handler reply is produced. -/
theorem C2_step_validation_behaviour :
    ∀ (s : Session) (text : List Char),
      (s.step = Step.awaitingNumber → (validatePhoneNumber text).valid = false →
        handleTextMessage s text =
          TurnResult.handled [Reply.invalidPhone (validatePhoneNumber text).message] s) ∧
      (s.step = Step.awaitingNumber → (validatePhoneNumber text).valid = true →
        handleTextMessage s text =
          TurnResult.handled [Reply.phoneAccepted (validatePhoneNumber text).country]
            { s with
              step := Step.awaitingMessage,
              data := { s.data with
                phoneNumber := some text,
                country := some (validatePhoneNumber text).country } }) ∧
      (s.step = Step.awaitingMessage → (validateMessage text).valid = false →
        handleTextMessage s text =
          TurnResult.handled [Reply.invalidMessage (validateMessage text).message] s) ∧
      (s.step = Step.awaitingMessage → (validateMessage text).valid = true →
        handleTextMessage s text =
          TurnResult.handled [Reply.messagePreview]
            { s with
              step := Step.confirmSend,
              data := { s.data with
                message := some text,
                messageParts := some (splitMessage text) } }) ∧
      ((s.step = Step.awaitingBulkNumbers ∨ s.step = Step.awaitingBulkMessages ∨
        s.step = Step.awaitingScheduleTime ∨ s.step = Step.awaitingScheduleMessage) →
        handleTextMessage s text = TurnResult.methodUndefined s ∧
        (handleTextMessage s text).isHandled = false) := by
  intro s text
  refine ⟨?_, ?_, ?_, ?_, ?_⟩
  · intro hstep hval
    obtain ⟨st, mo, da⟩ := s
    simp only at hstep
    subst hstep
    simp [handleTextMessage, processPhoneNumber, hval]
  · intro hstep hval
    obtain ⟨st, mo, da⟩ := s
    simp only at hstep
    subst hstep
    simp [handleTextMessage, processPhoneNumber, hval]
  · intro hstep hval
    obtain ⟨st, mo, da⟩ := s
    simp only at hstep
    subst hstep
    simp [handleTextMessage, processMessage, hval]
  · intro hstep hval
    obtain ⟨st, mo, da⟩ := s
    simp only at hstep
    subst hstep
    simp [handleTextMessage, processMessage, hval]
  · intro hstep
    have h := handleText_bulk_sched_raises s text hstep
    exact ⟨h, by rw [h]; rfl⟩

/-- C2 witness: the amended theorem applied in the `awaiting_number` step to
the invalid number `abc`, whose turn replies with the validation failure and
leaves the session unchanged. -/
theorem C2_step_validation_behaviour_witness :
    (validatePhoneNumber "abc".toList).valid = false ∧
    handleTextMessage ⟨Step.awaitingNumber, Mode.SINGLE, ⟨none, none, none, none⟩⟩ "abc".toList =
      TurnResult.handled [Reply.invalidPhone (validatePhoneNumber "abc".toList).message]
        ⟨Step.awaitingNumber, Mode.SINGLE, ⟨none, none, none, none⟩⟩ :=
  ⟨by decide,
   (C2_step_validation_behaviour ⟨Step.awaitingNumber, Mode.SINGLE, ⟨none, none, none, none⟩⟩
      "abc".toList).1 rfl (by decide)⟩

/-- C3: the gateway class defines none of `processBulkNumbers`,
`processBulkMessages`, `processScheduleTime`, `processScheduleMessage`, so in
every BULK or SCHEDULED input step a text turn raises (the dispatched method
is undefined) and the session is left unchanged — no session ever advances
beyond the initial step of those flows through a text turn. -/
theorem C3_bulk_scheduled_text_turn_raises :
    ∀ (s : Session) (text : List Char),
      (s.step = Step.awaitingBulkNumbers ∨ s.step = Step.awaitingBulkMessages ∨
       s.step = Step.awaitingScheduleTime ∨ s.step = Step.awaitingScheduleMessage) →
      handleTextMessage s text = TurnResult.methodUndefined s :=
  fun s text h => handleText_bulk_sched_raises s text h

/-- C3 witness: the theorem applied to a session in the
`awaiting_schedule_time` step. -/
theorem C3_bulk_scheduled_text_turn_raises_witness :
    handleTextMessage ⟨Step.awaitingScheduleTime, Mode.SCHEDULED, ⟨none, none, none, none⟩⟩
        "now".toList =
      TurnResult.methodUndefined
        ⟨Step.awaitingScheduleTime, Mode.SCHEDULED, ⟨none, none, none, none⟩⟩ :=
  C3_bulk_scheduled_text_turn_raises
    ⟨Step.awaitingScheduleTime, Mode.SCHEDULED, ⟨none, none, none, none⟩⟩ "now".toList
    (Or.inr (Or.inr (Or.inl rfl)))

/-- C4: a first interactive attempt that fails increments `totalSMS` and
`failed` by one, and a successful automatic retry then increments `successful`
and decrements `failed` without touching `totalSMS`; so the final counters
show `successful` up by exactly one and `failed` back at its pre-attempt
value. -/
theorem C4_failed_send_successful_retry_counters :
    ∀ stats : SystemStats,
      (sendSMSStatsUpdate stats false).totalSMS = stats.totalSMS + 1 ∧
      (sendSMSStatsUpdate stats false).failed = stats.failed + 1 ∧
      (retryStatsUpdate (sendSMSStatsUpdate stats false) true).successful = stats.successful + 1 ∧
      (retryStatsUpdate (sendSMSStatsUpdate stats false) true).failed = stats.failed ∧
      (retryStatsUpdate (sendSMSStatsUpdate stats false) true).totalSMS =
        (sendSMSStatsUpdate stats false).totalSMS := by
  intro stats
  simp [retryStatsUpdate, sendSMSStatsUpdate]

/-- C5: `processSMSTransmission` always returns a result record — on an
internal exception it returns a failure result with `success = false`,
`status = "FAILED"` and the captured error message, and on success a result
with `success = true` (and `status = "DELIVERED"`); no exception escapes the
boundary. -/
theorem C5_executor_always_returns_result :
    ∀ (phoneNumber message : List Char) (hour : ℕ) (jitter : String → ℚ),
      (∀ e : String,
        (processSMSTransmission phoneNumber message hour jitter (Except.error e)).success = false ∧
        (processSMSTransmission phoneNumber message hour jitter (Except.error e)).status =
          "FAILED" ∧
        (processSMSTransmission phoneNumber message hour jitter (Except.error e)).error =
          some e) ∧
      (∀ tr : TransmitResult,
        (processSMSTransmission phoneNumber message hour jitter (Except.ok tr)).success = true ∧
        (processSMSTransmission phoneNumber message hour jitter (Except.ok tr)).status =
          "DELIVERED") := by
  intro p m h j
  constructor <;> intro x <;> simp [processSMSTransmission]

/-- C6: for every message, `splitMessage` returns exactly
ceil(length / 160) pieces, every piece has at most 160 characters, and the
concatenation of the pieces in order is the original message. -/
theorem C6_splitMessage_spec :
    ∀ m : List Char,
      (splitMessage m).length = (m.length + 159) / 160 ∧
      (splitMessage m).flatten = m ∧
      (splitMessage m).all (fun p => decide (p.length ≤ 160)) = true :=
  fun m => ⟨splitMessage_length m, splitMessage_flatten m, splitMessage_piece_le m⟩

/-- C7: `detectCountry` agrees, on every input, with the longest-prefix-match
reading of the fixed table (no table code is a prefix of another, so at most
one entry ever matches and the first match in insertion order is the longest
match), returning INTERNATIONAL when no prefix matches. -/
theorem C7_detectCountry_longest_match :
    ∀ n : List Char, detectCountry n = detectCountryLongest n := by
  intro n
  unfold detectCountry detectCountryLongest
  have hlen := countryCodes_filter_length_le n
  rcases hf : countryCodes.filter (fun e => e.1.isPrefixOf n) with _ | ⟨a, t⟩
  · rw [find?_eq_head?_filter, hf]; rfl
  · rw [hf] at hlen
    have ht : t = [] := by
      simp only [List.length_cons] at hlen
      exact List.length_eq_zero.mp (by omega)
    subst ht
    rw [find?_eq_head?_filter, hf]
    simp [bestPrefixEntry]

/-- C8: every method score is clamped into [0, 1] whatever jitter is drawn,
and with the jitter pinned to 0 the selected method is exactly the first
method in the configured list attaining the maximum score (so repeated
invocations with identical inputs agree, and ties go to the first listed
method). -/
theorem C8_score_bounds_and_deterministic_selection :
    (∀ (method : String) (o : Optimization) (jitter : ℚ),
        0 ≤ scoreTransmissionMethod method o jitter ∧
        scoreTransmissionMethod method o jitter ≤ 1) ∧
    (∀ o : Optimization,
        selectBestTransmissionMethod o (fun _ => 0) = firstMaxMethod o (fun _ => 0)) :=
  ⟨fun method o jitter => score_bounds method o jitter, fun o => select_eq_firstMax o⟩

/-- C9: starting from the empty log, any sequence of appends leaves the
transmission log with at most 10,000 entries and the health log with at most
1,000, and in each case the retained entries are exactly the most recent ones
(the suffix of the appended sequence), oldest evicted first. -/
theorem C9_bounded_logs :
    ∀ (α : Type) (entries : List α),
      (entries.foldl logTransmissionAppend []).length ≤ 10000 ∧
      entries.foldl logTransmissionAppend [] = entries.drop (entries.length - 10000) ∧
      (entries.foldl healthLogAppend []).length ≤ 1000 ∧
      entries.foldl healthLogAppend [] = entries.drop (entries.length - 1000) := by
  intro α entries
  have e1 : entries.foldl logTransmissionAppend [] = entries.foldl (pushCapped 10000) [] := rfl
  have e2 : entries.foldl healthLogAppend [] = entries.foldl (pushCapped 1000) [] := rfl
  have h1 := foldl_pushCapped 10000 entries [] (by simp)
  have h2 := foldl_pushCapped 1000 entries [] (by simp)
  simp only [List.nil_append, List.length_nil, Nat.zero_add] at h1 h2
  refine ⟨?_, ?_, ?_, ?_⟩
  · rw [e1, h1]; simp [List.length_drop]; omega
  · rw [e1, h1]
  · rw [e2, h2]; simp [List.length_drop]; omega
  · rw [e2, h2]

/-- C10: a queue-drain tick removes at most 10 requests (exactly the first 10,
i.e. the queue becomes its own `drop 10`) and leaves the stats counters and
the transmission log untouched: the results of queued transmissions are
computed and discarded. -/
theorem C10_drain_tick_frame :
    ∀ (s : GatewayState) (hour : ℕ) (jitter : String → ℚ)
      (env : QueueItem → Except String TransmitResult),
      (processTransmissionQueue s hour jitter env).stats = s.stats ∧
      (processTransmissionQueue s hour jitter env).smsLogs = s.smsLogs ∧
      (processTransmissionQueue s hour jitter env).transmissionQueue =
        s.transmissionQueue.drop 10 ∧
      s.transmissionQueue.length -
        (processTransmissionQueue s hour jitter env).transmissionQueue.length ≤ 10 := by
  intro s hour jitter env
  have hfold : ∀ (batch : List QueueItem) (st : GatewayState),
      batch.foldl
        (fun st item =>
          let _result := processSMSTransmission item.phoneNumber item.message hour jitter (env item)
          st) st = st := by
    intro batch
    induction batch with
    | nil => intro st; rfl
    | cons a t ih => intro st; rw [List.foldl_cons]; exact ih st
  unfold processTransmissionQueue
  by_cases h : s.transmissionQueue.isEmpty
  · have hnil : s.transmissionQueue = [] := List.isEmpty_iff.mp h
    rw [if_pos h]
    simp [hnil]
  · rw [if_neg h, hfold]
    refine ⟨rfl, rfl, rfl, ?_⟩
    simp [List.length_drop]
    omega

end SMSGateway
